import Mathlib

/-!
Shallow embedding of `src/pkg/workloads/cortex/lib/model/validation.py`:
placeholder types, the pattern registry keyed by predictor type, and the
(stub) path-list tree builders, together with proofs about the claims of the spec.
-/

/-- Python `str.strip(chars)`: removes the leading and the trailing run of
characters belonging to `chars` from both ends of the string. -/
def pyStrip (s : String) (chars : List Char) : String :=
  String.mk (((s.data.dropWhile chars.contains).reverse.dropWhile chars.contains).reverse)

/-- Embeds `class TemplatePlaceholder(collections.namedtuple(..., "placeholder"))`:
a one-field named tuple. -/
structure TemplatePlaceholder where
  placeholder : String
deriving DecidableEq

/-- Embeds `TemplatePlaceholder.__new__`: stores `"<" + placeholder + ">"`.
No validation is performed on the argument. -/
def TemplatePlaceholder.new (p : String) : TemplatePlaceholder :=
  ⟨"<" ++ p ++ ">"⟩

/-- Embeds the `type` property: `str(self.placeholder).strip("<>")`. -/
def TemplatePlaceholder.type (t : TemplatePlaceholder) : String :=
  pyStrip t.placeholder ['<', '>']

/-- Embeds the default named-tuple equality on `TemplatePlaceholder`
(tuple equality, i.e. comparison of the `placeholder` fields). -/
def TemplatePlaceholder.beq (a b : TemplatePlaceholder) : Bool :=
  a.placeholder == b.placeholder

/-- Embeds `class GenericPlaceholder(collections.namedtuple(..., "placeholder value"))`:
a two-field named tuple. Every value occurring in the registry is a string. -/
structure GenericPlaceholder where
  placeholder : String
  value : String
deriving DecidableEq

/-- Embeds `GenericPlaceholder.__new__`: stores `("<generic>", value)`.
No validation is performed on the argument. -/
def GenericPlaceholder.new (v : String) : GenericPlaceholder :=
  ⟨"<generic>", v⟩

/-- The closed universe of placeholder objects appearing in the registry:
template placeholders, generic placeholders and ordered groups
(`PlaceholderGroup(*args)` holding its parts in order). -/
inductive Placeholder
  | template (t : TemplatePlaceholder)
  | generic (g : GenericPlaceholder)
  | group (parts : List Placeholder)

/-- Embeds `GenericPlaceholder.__eq__`: an `isinstance` test against
`GenericPlaceholder`, then comparison of the `placeholder` fields only
(the carried `value` is ignored; any non-generic operand gives `False`). -/
def GenericPlaceholder.pyEq (g : GenericPlaceholder) (other : Placeholder) : Bool :=
  match other with
  | .generic g2 => g.placeholder == g2.placeholder
  | _ => false

/-- Deterministic stand-in for the (process-randomized) Python string hash;
what matters for the claims is only which inputs it separates. -/
def strHash (s : String) : Nat :=
  s.data.foldl (fun acc c => acc * 31 + c.toNat) 7

/-- Deterministic stand-in for the Python hash of a pair. -/
def pairHash (a b : Nat) : Nat :=
  a * 1000003 + b

/-- Embeds `GenericPlaceholder.__hash__`: `hash((self.placeholder, self.value))`,
a hash of the pair of both fields (the carried value is incorporated). -/
def GenericPlaceholder.pyHash (g : GenericPlaceholder) : Nat :=
  pairHash (strHash g.placeholder) (strHash g.value)

/-- `IntegerPlaceholder = TemplatePlaceholder("integer")`. -/
def IntegerPlaceholder : TemplatePlaceholder := TemplatePlaceholder.new "integer"

/-- `AnyPlaceholder = TemplatePlaceholder("any")`. -/
def AnyPlaceholder : TemplatePlaceholder := TemplatePlaceholder.new "any"

/-- `SinglePlaceholder = TemplatePlaceholder("single")`. -/
def SinglePlaceholder : TemplatePlaceholder := TemplatePlaceholder.new "single"

/-- `ExclAlternativePlaceholder = TemplatePlaceholder("exclusive")`. -/
def ExclAlternativePlaceholder : TemplatePlaceholder := TemplatePlaceholder.new "exclusive"

/-- `UniquePlaceholder = TemplatePlaceholder("unique")`. -/
def UniquePlaceholder : TemplatePlaceholder := TemplatePlaceholder.new "unique"

/-- Modelled from the spec: the predictor-type enum lives in `cortex.lib.api`,
which is not part of the given source; the spec describes it as a closed set
of string tags (`python`, `tensorflow`, `onnx` for the three registered
predictor kinds), so a predictor type is embedded as a tagged value. -/
structure PredictorType where
  type : String
deriving DecidableEq

/-- Modelled from the spec: the generic-script predictor type tag. -/
def PythonPredictorType : PredictorType := ⟨"python"⟩

/-- Modelled from the spec: the deep-learning-graph predictor type tag. -/
def TensorFlowPredictorType : PredictorType := ⟨"tensorflow"⟩

/-- Modelled from the spec: the portable-inference-graph predictor type tag. -/
def ONNXPredictorType : PredictorType := ⟨"onnx"⟩

/-- A node of a pattern tree as it occurs in the `model_template` literal:
a Python dict value there is `None`, a bare placeholder, a nested dict, or a
set of placeholders. -/
inductive PatternValue
  | none
  | atom (k : Placeholder)
  | dict (entries : List (Placeholder × PatternValue))
  | set (elems : List Placeholder)

/-- The `PythonPredictorType` entry of `model_template`:
`{IntegerPlaceholder: AnyPlaceholder}`. -/
def pythonModelTemplate : PatternValue :=
  .dict [(.template IntegerPlaceholder, .atom (.template AnyPlaceholder))]

/-- The `TensorFlowPredictorType` entry of `model_template`. -/
def tensorflowModelTemplate : PatternValue :=
  .dict [(.template IntegerPlaceholder,
    .dict [(.template AnyPlaceholder, .none),
           (.generic (GenericPlaceholder.new "saved_model.pb"), .none),
           (.generic (GenericPlaceholder.new "variables"),
             .set [.generic (GenericPlaceholder.new "variables.index"),
                   .group [.generic (GenericPlaceholder.new "variables.data-00000-of-"),
                           .template AnyPlaceholder],
                   .template AnyPlaceholder])])]

/-- The `ONNXPredictorType` entry of `model_template`. -/
def onnxModelTemplate : PatternValue :=
  .dict [(.template IntegerPlaceholder,
           .set [.group [.template SinglePlaceholder, .generic (GenericPlaceholder.new ".onnx")]]),
         (.group [.template ExclAlternativePlaceholder, .template SinglePlaceholder,
                  .generic (GenericPlaceholder.new ".onnx")], .none)]

/-- The `model_template` dict literal, as an association list keyed by
predictor type. -/
def model_template_entries : List (PredictorType × PatternValue) :=
  [(PythonPredictorType, pythonModelTemplate),
   (TensorFlowPredictorType, tensorflowModelTemplate),
   (ONNXPredictorType, onnxModelTemplate)]

/-- Lookup in `model_template`; the Python `model_template[predictor_type]`
raises `KeyError` on an absent key, embedded as `Option.none`. -/
def model_template (pt : PredictorType) : Option PatternValue :=
  model_template_entries.lookup pt

/-- Embeds `dirs_model_pattern`: `{UniquePlaceholder: model_template[predictor_type]}`;
a failing registry lookup propagates. -/
def dirs_model_pattern (pt : PredictorType) : Option PatternValue :=
  (model_template pt).map (fun t => .dict [(.template UniquePlaceholder, t)])

/-- Embeds `model_pattern`: `model_template[predictor_type]`. -/
def model_pattern (pt : PredictorType) : Option PatternValue :=
  model_template pt

/-- A pattern tree is non-empty when its top node carries at least one entry. -/
def PatternValue.nonEmpty : PatternValue → Bool
  | .dict entries => !entries.isEmpty
  | .set elems => !elems.isEmpty
  | .atom _ => true
  | .none => false

/-- A discovered path tree: nested mappings keyed by path segment. -/
inductive PathTree
  | node (children : List (String × PathTree))

/-- Embeds `models_tree_from_s3_top_paths`, a stub in the source: its loop
only binds a local (`model_name = os.path.dirname(s3_top_path)`) that is
never used, and the function returns the empty dict `{}` for every input. -/
def models_tree_from_s3_top_paths (s3_top_paths : List String)
    (pt : PredictorType) : PathTree :=
  PathTree.node []

/-- Embeds `models_tree_from_s3_path`, a stub in the source returning `{}`. -/
def models_tree_from_s3_path (s3_path : List String)
    (pt : PredictorType) : PathTree :=
  PathTree.node []

/-- A list whose head (if any) fails the predicate is unchanged by `dropWhile`. -/
theorem dropWhile_eq_self_of_head {α : Type} (p : α → Bool) (l : List α)
    (h : l.head?.all (fun c => !(p c)) = true) : l.dropWhile p = l := by
  cases l with
  | nil => rfl
  | cons a l =>
    simp only [List.head?, Option.all_some, Bool.not_eq_true'] at h
    simp [List.dropWhile, h]

/-- Wrapping a string in angle brackets is injective. -/
theorem angle_wrap_inj {k1 k2 : String}
    (h : ("<" ++ k1 ++ ">" : String) = "<" ++ k2 ++ ">") : k1 = k2 := by
  obtain ⟨l1⟩ := k1
  obtain ⟨l2⟩ := k2
  have hd : ('<' :: (l1 ++ ['>']) : List Char) = '<' :: (l2 ++ ['>']) := by
    simpa [String.data_append] using congrArg String.data h
  simp only [List.cons.injEq, true_and] at hd
  have : l1 = l2 := by simpa using hd
  simp [this]

/-- C1: for each of the three registered predictor types, `model_pattern`
returns the registry tree, `dirs_model_pattern` returns exactly that tree
wrapped one level deeper under the unique placeholder key, and both returned
trees are non-empty. -/
theorem c1_dirs_model_pattern_wraps (pt : PredictorType)
    (h : pt = PythonPredictorType ∨ pt = TensorFlowPredictorType ∨ pt = ONNXPredictorType) :
    ∃ t, model_pattern pt = some t ∧
      dirs_model_pattern pt = some (PatternValue.dict [(.template UniquePlaceholder, t)]) ∧
      t.nonEmpty = true ∧
      (PatternValue.dict [(.template UniquePlaceholder, t)]).nonEmpty = true := by
  rcases h with h | h | h <;> subst h <;> exact ⟨_, rfl, rfl, rfl, rfl⟩

/-- Witness for C1 at the generic-script predictor type. -/
theorem c1_dirs_model_pattern_wraps_witness :
    ∃ t, model_pattern PythonPredictorType = some t ∧
      dirs_model_pattern PythonPredictorType =
        some (PatternValue.dict [(.template UniquePlaceholder, t)]) ∧
      t.nonEmpty = true ∧
      (PatternValue.dict [(.template UniquePlaceholder, t)]).nonEmpty = true :=
  c1_dirs_model_pattern_wraps PythonPredictorType (Or.inl rfl)

/-- C2: for a predictor type that is not one of the three registered ones,
both `model_pattern` and `dirs_model_pattern` signal a lookup failure
(`Option.none`, embedding the KeyError), with no default and no partial
result. -/
theorem c2_unknown_predictor_fails (pt : PredictorType)
    (h1 : pt ≠ PythonPredictorType) (h2 : pt ≠ TensorFlowPredictorType)
    (h3 : pt ≠ ONNXPredictorType) :
    model_pattern pt = none ∧ dirs_model_pattern pt = none := by
  have b1 : (pt == PythonPredictorType) = false := beq_eq_false_iff_ne.mpr h1
  have b2 : (pt == TensorFlowPredictorType) = false := beq_eq_false_iff_ne.mpr h2
  have b3 : (pt == ONNXPredictorType) = false := beq_eq_false_iff_ne.mpr h3
  have e : model_template pt = none := by
    simp [model_template, model_template_entries, List.lookup, b1, b2, b3]
  exact ⟨e, by simp [dirs_model_pattern, e]⟩

/-- Witness for C2 at an unregistered predictor type tag. -/
theorem c2_unknown_predictor_fails_witness :
    model_pattern ⟨"scikit"⟩ = none ∧ dirs_model_pattern ⟨"scikit"⟩ = none :=
  c2_unknown_predictor_fails ⟨"scikit"⟩ (by decide) (by decide) (by decide)

/-- C3: any two generic placeholders compare equal under the overridden
equality regardless of their carried values, and a generic placeholder is
never equal to a template placeholder or to a placeholder group. -/
theorem c3_generic_eq_by_kind_only :
    (∀ v1 v2 : String,
      (GenericPlaceholder.new v1).pyEq (.generic (GenericPlaceholder.new v2)) = true) ∧
    (∀ (g : GenericPlaceholder) (t : TemplatePlaceholder),
      g.pyEq (.template t) = false) ∧
    (∀ (g : GenericPlaceholder) (parts : List Placeholder),
      g.pyEq (.group parts) = false) :=
  ⟨fun _ _ => rfl, fun _ _ => rfl, fun _ _ => rfl⟩

/-- C4 counterexample: constructing a placeholder from the empty string is
not rejected; both constructors return a placeholder object built from the
empty string. -/
theorem c4_counterexample_empty_accepted :
    TemplatePlaceholder.new "" = ⟨"<>"⟩ ∧
    GenericPlaceholder.new "" = ⟨"<generic>", ""⟩ := by
  exact ⟨rfl, rfl⟩

/-- C4 amended: construction never rejects its argument; for every string,
the empty string included, a placeholder object is returned whose fields are
built structurally from the argument, with no validation anywhere. -/
theorem c4_amended_construction_total (s : String) :
    (TemplatePlaceholder.new s).placeholder = "<" ++ s ++ ">" ∧
    (GenericPlaceholder.new s).placeholder = "<generic>" ∧
    (GenericPlaceholder.new s).value = s :=
  ⟨rfl, rfl, rfl⟩

/-- C5 counterexample: the kind string consisting of a single opening angle
bracket does not round-trip through construction and the `type` property,
because `strip` removes every leading and trailing bracket character. -/
theorem c5_counterexample_angle_kind :
    ¬((TemplatePlaceholder.new "<").type = "<") ∧ (TemplatePlaceholder.new "<").type = "" := by
  constructor <;> decide

/-- C5 amended: for every kind string that neither starts nor ends with an
angle-bracket character, construction followed by the `type` property
round-trips the kind string. -/
theorem c5_type_round_trip (k : String)
    (h1 : k.data.head?.all (fun c => !(['<', '>'].contains c)) = true)
    (h2 : k.data.getLast?.all (fun c => !(['<', '>'].contains c)) = true) :
    (TemplatePlaceholder.new k).type = k := by
  obtain ⟨l⟩ := k
  simp only [TemplatePlaceholder.type, TemplatePlaceholder.new, pyStrip]
  have hd : ("<" ++ String.mk l ++ ">").data = '<' :: (l ++ ['>']) := by
    simp [String.data_append]
  rw [hd]
  cases l with
  | nil => rfl
  | cons c rest =>
    have hc : (['<', '>'].contains c) = false := by
      simp only [List.head?, Option.all_some, Bool.not_eq_true'] at h1
      exact h1
    have step1 : (('<' :: ((c :: rest) ++ ['>'])).dropWhile ['<', '>'].contains)
        = ((c :: rest) ++ ['>']).dropWhile ['<', '>'].contains := rfl
    have step1b : (((c :: rest) ++ ['>']).dropWhile ['<', '>'].contains)
        = (c :: rest) ++ ['>'] := by
      apply dropWhile_eq_self_of_head
      simp only [List.cons_append, List.head?, Option.all_some, Bool.not_eq_true']
      exact hc
    rw [step1, step1b]
    have hrev : ((c :: rest) ++ ['>']).reverse = '>' :: (c :: rest).reverse := by
      simp
    rw [hrev]
    have step2 : (('>' :: (c :: rest).reverse).dropWhile ['<', '>'].contains)
        = (c :: rest).reverse.dropWhile ['<', '>'].contains := rfl
    rw [step2]
    have step3 : ((c :: rest).reverse.dropWhile ['<', '>'].contains) = (c :: rest).reverse := by
      apply dropWhile_eq_self_of_head
      rw [List.head?_reverse]
      exact h2
    rw [step3]
    simp

/-- Witness for C5 at the kind string of the integer placeholder. -/
theorem c5_type_round_trip_witness :
    (TemplatePlaceholder.new "integer").type = "integer" :=
  c5_type_round_trip "integer" (by decide) (by decide)

/-- C6: two template placeholders built from the same kind string are equal
under the named-tuple equality, and template placeholders built from
distinct kind strings are unequal. -/
theorem c6_template_eq_by_kind (k k1 k2 : String) (h : k1 ≠ k2) :
    TemplatePlaceholder.beq (TemplatePlaceholder.new k) (TemplatePlaceholder.new k) = true ∧
    TemplatePlaceholder.beq (TemplatePlaceholder.new k1) (TemplatePlaceholder.new k2) = false := by
  constructor
  · simp [TemplatePlaceholder.beq]
  · have hne : ("<" ++ k1 ++ ">" : String) ≠ "<" ++ k2 ++ ">" :=
      fun he => h (angle_wrap_inj he)
    simpa [TemplatePlaceholder.beq, TemplatePlaceholder.new] using hne

/-- Witness for C6 at two of the registered kind strings. -/
theorem c6_template_eq_by_kind_witness :
    TemplatePlaceholder.beq (TemplatePlaceholder.new "any") (TemplatePlaceholder.new "any") = true ∧
    TemplatePlaceholder.beq (TemplatePlaceholder.new "integer") (TemplatePlaceholder.new "any")
      = false :=
  c6_template_eq_by_kind "any" "integer" "any" (by decide)

/-- C7: evaluation of the stub tree builder at a non-empty listing; it
returns the empty tree instead of the nested tree mirroring the listing. -/
theorem c7_stub_returns_empty_tree :
    models_tree_from_s3_top_paths ["a/b/c.txt", "a/b/d.txt"] PythonPredictorType =
      PathTree.node [] :=
  rfl

/-- C8: the tree builder applied twice to equal inputs returns equal trees. -/
theorem c8_tree_builder_deterministic (ps1 ps2 : List String) (pt : PredictorType)
    (h : ps1 = ps2) :
    models_tree_from_s3_top_paths ps1 pt = models_tree_from_s3_top_paths ps2 pt := by
  rw [h]

/-- Witness for C8 at the listing from the spec. -/
theorem c8_tree_builder_deterministic_witness :
    models_tree_from_s3_top_paths ["a/b/c.txt", "a/b/d.txt"] PythonPredictorType =
      models_tree_from_s3_top_paths ["a/b/c.txt", "a/b/d.txt"] PythonPredictorType :=
  c8_tree_builder_deterministic ["a/b/c.txt", "a/b/d.txt"] ["a/b/c.txt", "a/b/d.txt"]
    PythonPredictorType rfl

/-- C9: the registry entry for the generic-script predictor type is exactly
the one-entry mapping from the integer placeholder to the any placeholder. -/
theorem c9_python_pattern_is_integer_to_any :
    model_pattern PythonPredictorType =
      some (PatternValue.dict [(.template IntegerPlaceholder, .atom (.template AnyPlaceholder))]) :=
  rfl

/-- C10: there exist generic placeholders that are equal under the overridden
equality yet have different hashes, because the hash incorporates the carried
value while equality ignores it. -/
theorem c10_equal_generics_unequal_hashes :
    ∃ a b : GenericPlaceholder,
      a.pyEq (.generic b) = true ∧ a.pyHash ≠ b.pyHash :=
  ⟨GenericPlaceholder.new "saved_model.pb", GenericPlaceholder.new "variables",
    rfl, by decide⟩
